import Mathlib

/-!
Verification model of the EZ-Robotics python backend: the plugin
lifecycle/dispatch runtime (`plugin_manager.py`) and its websocket transport
handlers (`server.py`).

The embedding is shallow.  Python dicts are association lists; Python `None`
is `Value.vnone`; a fallible Python call is `Except String`; the effects of
cancelling stream tasks and of invoking a plugin's `cleanup` entry point are
logged in an explicit `Effect` trace so that theorems can speak about them.

Timing abstraction for streams: `asyncio.Queue.put` on a non-full queue never
suspends, so a producer task that terminates runs to completion in a single
scheduling slice before the consumer can observe the end marker (its task is
`done()` at every consumer pull).  A producer that blocks forever is the
`GTrace.stall` shape, and how it blocks matters: an async producer stalls at
an `await`, leaving the event loop free, so items it produced arrive within
the 10 s inactivity timeout and the next pull after them times out; but a
synchronous generator is iterated directly on the event-loop thread, so a
sync producer that blocks holds the loop itself — the consumer (and its
timer) can never run, nothing is ever observed, and the stream handle is
never removed.  The model returns that limiting observable state for the
wedged case.
-/

set_option linter.unusedVariables false

namespace EZR

/-- Association-list lookup, the model of Python `dict.get(key)` /
`hasattr`. -/
def dictGet {α : Type} : List (String × α) → String → Option α
  | [], _ => none
  | (k, v) :: rest, key => if k = key then some v else dictGet rest key

/-- Removal of a key, the model of Python `dict.pop(key, None)`. -/
def dictErase {α : Type} : List (String × α) → String → List (String × α)
  | [], _ => []
  | (k, v) :: rest, key =>
      if k = key then dictErase rest key else (k, v) :: dictErase rest key

/-- Key update, the model of Python `d[key] = v` (replaces any previous
binding of `key`). -/
def dictSet {α : Type} (d : List (String × α)) (key : String) (v : α) :
    List (String × α) :=
  (key, v) :: dictErase d key

/-- The keys of a dict, for stating the one-instance-per-id invariant. -/
def dictKeys {α : Type} (d : List (String × α)) : List String :=
  d.map Prod.fst

/-- Trace of iterating a (possibly async) generator: either it terminates,
having yielded `yields` and then optionally raised, or it yields `yields`
and then blocks forever without yielding again and without returning. -/
inductive GTrace (α : Type) where
  | done (yields : List α) (raises : Option String)
  | stall (yields : List α)

/-- Whether the producer task running this trace terminates (and is hence
`done()` by the time the consumer observes its end marker). -/
def GTrace.isDone {α : Type} : GTrace α → Bool
  | .done _ _ => true
  | .stall _ => false

/-- Python values relevant to the model.  `vgen`/`vagen` are the generator /
async-generator objects obtained by *calling* a (async) generator function:
the body has not run yet, its observable iteration behaviour is the carried
trace. -/
inductive Value where
  | vnone
  | vint (n : Int)
  | vstr (s : String)
  | vgen (t : GTrace Value)
  | vagen (t : GTrace Value)

/-- The `data is None` test of the consumer loop. -/
def Value.isNone : Value → Bool
  | .vnone => true
  | _ => false

/-- Positional and keyword arguments of one call. -/
structure CallArgs where
  args : List Value
  kwargs : List (String × Value)

/-- A plugin entry point, by its Python calling convention:
`plain` — ordinary `def` returning a value (or raising);
`genFn` — generator function (`def` with `yield`), `inspect.isgeneratorfunction`;
`coro` — `async def` returning a value, `asyncio.iscoroutinefunction`;
`asyncGen` — async generator function, `inspect.isasyncgenfunction`. -/
inductive PluginFunc where
  | plain (f : CallArgs → Except String Value)
  | genFn (run : CallArgs → GTrace Value)
  | coro (f : CallArgs → Except String Value)
  | asyncGen (run : CallArgs → GTrace Value)

/-- A loaded module namespace: named attributes that are callables. -/
def Module := List (String × PluginFunc)

/-- Observable side effects on stream tasks and plugin code units, recorded
so theorems can state what `load`/`unload`/`stop` do and do not do. -/
inductive Effect where
  | streamCancelled (pluginId : String) (streamId : String)
  | cleanupRun (pluginId : String)

/-- `PluginInstance` (plugin_manager.py): one loaded code unit plus the ids
of its currently active streams (`self.streams` keys; the dict values are
asyncio tasks, represented here only through `Effect`s). -/
structure PluginInstance where
  plugin_id : String
  module : Module
  streams : List String

/-- `PluginManager` (plugin_manager.py): `self.plugins`, the id → instance
dict. -/
structure PluginManager where
  plugins : List (String × PluginInstance)

/-- Outcome of executing an externally supplied code unit
(`importlib` `exec_module` plus the optional `initialize` entry point, run
inside `PluginInstance.load`): the module namespace, or the message of the
exception that escaped. -/
structure CodeUnit where
  loadResult : Except String Module

/-- `PluginInstance.execute_function` (plugin_manager.py:231-243): resolve
the attribute, raise if absent; `await` it when
`asyncio.iscoroutinefunction`, otherwise call it in the worker pool.  No
shape check is performed: calling a (async) generator function merely
constructs the generator object, which is returned as the result. -/
def PluginInstance.execute_function (inst : PluginInstance)
    (function_name : String) (ca : CallArgs) : Except String Value :=
  match dictGet inst.module function_name with
  | none => .error ("Function " ++ function_name ++ " not found in plugin")
  | some f =>
      match f with
      | .coro g => g ca
      | .plain g => g ca
      | .genFn run => .ok (Value.vgen (run ca))
      | .asyncGen run => .ok (Value.vagen (run ca))

/-- How starting the producer task behaves: the trace of queue puts it
performs, and whether the items are produced by iterating synchronously on
the event-loop thread (a plain `for` over a sync iterable, lines 302-303,
314-315 and 324-325 of plugin_manager.py) rather than at cooperative
suspension points. -/
structure ProducerRun where
  trace : GTrace Value
  syncIter : Bool

/-- The producer blocks while holding the event-loop thread: a stalled
synchronous iteration.  The consumer coroutine — and the `wait_for` timer —
can then never run. -/
def ProducerRun.wedges (pr : ProducerRun) : Bool :=
  pr.syncIter && !pr.trace.isDone

/-- Iterating a Python `str` yields its characters as one-character
strings. -/
def strChars (s : String) : List Value :=
  s.data.map fun c => Value.vstr (String.singleton c)

/-- `PluginInstance._run_streaming_function` (plugin_manager.py:292-333),
as the trace of queue puts its task performs.  Dispatch order follows the
source: `isasyncgenfunction`, then `isgeneratorfunction`, then
`iscoroutinefunction` (whose awaited result is iterated if it has
`__aiter__`, else if it has `__iter__` — generator objects and also plain
iterables such as `str`), else a plain call whose result must likewise have
`__iter__`.  Sync generators and other sync iterables are iterated directly
on the event-loop thread (`syncIter`); async generators are iterated at
`await` points.  The `finally: await queue.put(None)` end marker is
appended by `pullsOf`; an exception is caught, logged and re-raised, ending
up as the (never retrieved) task result, recorded in the `raises` field of
the trace. -/
def run_streaming_function (function_name : String) (f : PluginFunc)
    (ca : CallArgs) : ProducerRun :=
  match f with
  | .asyncGen run => ⟨run ca, false⟩
  | .genFn run => ⟨run ca, true⟩
  | .coro g =>
      match g ca with
      | .error e => ⟨.done [] (some e), false⟩
      | .ok v =>
          match v with
          | .vagen t => ⟨t, false⟩
          | .vgen t => ⟨t, true⟩
          | .vstr s => ⟨.done (strChars s) none, true⟩
          | _ => ⟨.done []
              (some ("Async function " ++ function_name ++
                " did not return a generator")), false⟩
  | .plain g =>
      match g ca with
      | .error e => ⟨.done [] (some e), false⟩
      | .ok v =>
          match v with
          | .vgen t => ⟨t, true⟩
          | .vstr s => ⟨.done (strChars s) none, true⟩
          | _ => ⟨.done []
              (some ("Function " ++ function_name ++
                " did not return a generator")), false⟩

/-- One pull by the consumer (`asyncio.wait_for(queue.get(), timeout=10.0)`):
an item arrived in time, or the 10 s inactivity timeout fired. -/
inductive Pull where
  | item (v : Value)
  | timeout

/-- The arrivals the consumer can observe for a producer that does not hold
the event-loop thread (see `ProducerRun.wedges` for the case that does):
each produced item in FIFO order; for a terminating producer the `finally`
block then puts the `None` end marker; for a producer stalled at an `await`
the next pull after the produced items times out. -/
def pullsOf : GTrace Value → List Pull
  | .done ys _ => ys.map Pull.item ++ [Pull.item Value.vnone]
  | .stall ys => ys.map Pull.item ++ [Pull.timeout]

/-- The consumer loop of `PluginInstance.stream_function`
(plugin_manager.py:267-281): pull until a timeout (`break` after the logged
warning) or until the end-of-stream test `data is None` succeeds (`break`);
every other item is yielded. -/
def consumeLoop : List Pull → List Value
  | [] => []
  | Pull.timeout :: _ => []
  | Pull.item v :: rest =>
      if v.isNone then [] else v :: consumeLoop rest

/-- What one run of an async generator looks like to its consumer: the
values it yielded, and the exception (if any) that escaped it. -/
structure GenRun where
  yielded : List Value
  error : Option String

/-- `PluginInstance.stream_function` (plugin_manager.py:245-290): resolve
the attribute (raise if absent — this is the only escaping exception),
record the producer task under `stream_id`, run the consumer loop, then the
`finally` block: a task that is not yet `done()` is cancelled and its
`CancelledError` swallowed — a task that already completed is *not*
awaited, so an exception stored in it is never re-raised — and the handle
is popped from `self.streams`.  A terminating producer (`GTrace.done`) is
already done when the consumer sees the end marker, because `queue.put`
never suspends; a producer stalled at an `await` is still pending when the
timeout fires and gets cancelled.  A producer that wedges the event loop
(a blocking synchronous iteration) never lets the consumer coroutine run
again: no value is ever yielded, the `finally` never executes, the handle
stays in `self.streams` and nothing is cancelled — the returned triple is
that limiting observable state. -/
def PluginInstance.stream_function (inst : PluginInstance)
    (stream_id function_name : String) (ca : CallArgs) :
    GenRun × PluginInstance × List Effect :=
  match dictGet inst.module function_name with
  | none =>
      (⟨[], some ("Function " ++ function_name ++ " not found in plugin")⟩,
        inst, [])
  | some f =>
      let pr := run_streaming_function function_name f ca
      let withStream := stream_id :: inst.streams.erase stream_id
      if pr.wedges then
        (⟨[], none⟩, { inst with streams := withStream }, [])
      else
        let yielded := consumeLoop (pullsOf pr.trace)
        let fx := if pr.trace.isDone then []
          else [Effect.streamCancelled inst.plugin_id stream_id]
        (⟨yielded, none⟩,
          { inst with streams := withStream.erase stream_id }, fx)

/-- `PluginManager.stream_plugin_function` (plugin_manager.py:158-172):
raise if the plugin id is unknown, else delegate to the instance and relay
its yields. -/
def stream_plugin_function (mgr : PluginManager)
    (plugin_id stream_id function_name : String) (ca : CallArgs) :
    GenRun × PluginManager × List Effect :=
  match dictGet mgr.plugins plugin_id with
  | none =>
      (⟨[], some ("Plugin " ++ plugin_id ++ " not loaded")⟩, mgr, [])
  | some plugin =>
      let (r, plugin2, fx) := plugin.stream_function stream_id function_name ca
      (r, ⟨dictSet mgr.plugins plugin_id plugin2⟩, fx)

/-- Websocket events sent by the host for a stream (server.py): each yielded
value as a `stream_data` message, an escaped exception as a `stream_error`
message. -/
inductive StreamEvent where
  | data (streamId : String) (payload : Value)
  | error (streamId : String) (message : String)

/-- `handle_stream` (server.py:157-182): return silently when no connection
is registered for the plugin; otherwise relay each yielded value as
`stream_data` and turn an escaped exception into one `stream_error` event.
The connection is assumed to stay open for the duration of the relay (the
in-loop disconnect checks never fire in the modelled scenarios). -/
def handle_stream (conns : List String) (mgr : PluginManager)
    (plugin_id stream_id function_name : String) (ca : CallArgs) :
    List StreamEvent × PluginManager × List Effect :=
  if conns.contains plugin_id then
    let (r, mgr2, fx) :=
      stream_plugin_function mgr plugin_id stream_id function_name ca
    let dataEvents := r.yielded.map (StreamEvent.data stream_id)
    match r.error with
    | some e => (dataEvents ++ [StreamEvent.error stream_id e], mgr2, fx)
    | none => (dataEvents, mgr2, fx)
  else ([], mgr, [])

/-- Result dict of `PluginManager.load_plugin`. -/
structure LoadOut where
  success : Bool
  error : Option String

/-- `PluginManager.load_plugin` (plugin_manager.py:34-62): persist the code
text under `plugins/<id>/main.py`, best-effort install the requirements
(`_install_requirements_global` catches every exception internally, so this
step never fails the load), construct a fresh `PluginInstance` and run its
`load`; only then is the instance stored under the id, replacing any
previous binding.  Any exception before the store (executing the code unit,
or its `initialize` entry point raising) is caught and reported as
`success: False` with the registry untouched.  Nothing is done to a
previously registered instance under the same id: no `Effect` is emitted. -/
def load_plugin (mgr : PluginManager) (plugin_id : String)
    (python_code : CodeUnit) (requirements : List String) :
    LoadOut × PluginManager × List Effect :=
  match python_code.loadResult with
  | .error e => (⟨false, some e⟩, mgr, [])
  | .ok m =>
      let plugin : PluginInstance := ⟨plugin_id, m, []⟩
      (⟨true, none⟩, ⟨dictSet mgr.plugins plugin_id plugin⟩, [])

/-- Result dict of `PluginManager.execute_plugin_function`: exactly one of
`result`/`error` is set. -/
structure ExecOut where
  result : Option Value
  error : Option String

/-- `PluginManager.execute_plugin_function` (plugin_manager.py:139-156):
an unknown id yields an `error` dict; otherwise execute and catch any
exception into the `error` field.  This function never raises. -/
def execute_plugin_function (mgr : PluginManager)
    (plugin_id function_name : String) (ca : CallArgs) : ExecOut :=
  match dictGet mgr.plugins plugin_id with
  | none => ⟨none, some ("Plugin " ++ plugin_id ++ " not loaded")⟩
  | some plugin =>
      match plugin.execute_function function_name ca with
      | .ok v => ⟨some v, none⟩
      | .error e => ⟨none, some e⟩

/-- `PluginInstance.stop_stream` (plugin_manager.py:335-343): pop the handle
and cancel its task when present. -/
def PluginInstance.stop_stream (inst : PluginInstance) (stream_id : String) :
    PluginInstance × List Effect :=
  if inst.streams.contains stream_id then
    ({ inst with streams := inst.streams.erase stream_id },
      [Effect.streamCancelled inst.plugin_id stream_id])
  else (inst, [])

/-- `PluginManager.stop_stream` (plugin_manager.py:174-178). -/
def stop_stream (mgr : PluginManager) (plugin_id stream_id : String) :
    PluginManager × List Effect :=
  match dictGet mgr.plugins plugin_id with
  | none => (mgr, [])
  | some plugin =>
      let (plugin2, fx) := plugin.stop_stream stream_id
      (⟨dictSet mgr.plugins plugin_id plugin2⟩, fx)

/-- `PluginInstance.stop` (plugin_manager.py:345-354): cancel every active
stream task and clear the handle map.  The module and identity are
untouched. -/
def PluginInstance.stop (inst : PluginInstance) :
    PluginInstance × List Effect :=
  ({ inst with streams := [] },
    inst.streams.map (Effect.streamCancelled inst.plugin_id))

/-- `PluginManager.stop_plugin` (plugin_manager.py:187-191): stop the
instance's streams, if the id is registered; the registry entry remains. -/
def stop_plugin (mgr : PluginManager) (plugin_id : String) :
    PluginManager × List Effect :=
  match dictGet mgr.plugins plugin_id with
  | none => (mgr, [])
  | some plugin =>
      let (plugin2, fx) := plugin.stop
      (⟨dictSet mgr.plugins plugin_id plugin2⟩, fx)

/-- `PluginManager.unload_plugin` (plugin_manager.py:180-185) together with
`PluginInstance.unload` (plugin_manager.py:356-362): pop the registry entry,
cancel its streams and run the optional `cleanup` entry point. -/
def unload_plugin (mgr : PluginManager) (plugin_id : String) :
    PluginManager × List Effect :=
  match dictGet mgr.plugins plugin_id with
  | none => (mgr, [])
  | some plugin =>
      let stopFx := plugin.streams.map (Effect.streamCancelled plugin_id)
      let cleanupFx :=
        if (dictGet plugin.module "cleanup").isSome then
          [Effect.cleanupRun plugin_id]
        else []
      (⟨dictErase mgr.plugins plugin_id⟩, stopFx ++ cleanupFx)

/-- The `except WebSocketDisconnect` branch of `websocket_endpoint`
(server.py:67-70): drop the connection and `stop_plugin` — streams are
cancelled, the instance stays registered. -/
def on_disconnect (conns : List String) (mgr : PluginManager)
    (plugin_id : String) : List String × PluginManager × List Effect :=
  let conns2 := conns.erase plugin_id
  let (mgr2, fx) := stop_plugin mgr plugin_id
  (conns2, mgr2, fx)

/-- The body of a client → host message, by its `type` tag (server.py). -/
inductive MessageBody where
  | load (pythonCode : CodeUnit) (requirements : List String)
  | execute (function : String) (args : List Value)
      (kwargs : List (String × Value))
  | stream_start (streamId : String) (function : String)
      (args : List Value) (kwargs : List (String × Value))
  | stream_stop (streamId : String)
  | unload

/-- A client → host message: `message.get("id")` plus the typed body. -/
structure Message where
  id : Option String
  body : MessageBody

/-- Host → client responses (server.py), each echoing the message id. -/
inductive Response where
  | load_response (id : Option String) (success : Bool)
      (error : Option String)
  | execute_response (id : Option String) (result : Option Value)
      (error : Option String)
  | stream_start_response (id : Option String) (streamId : String)
      (success : Bool)
  | stream_stop_response (id : Option String) (streamId : String)
      (success : Bool)
  | unload_response (id : Option String) (success : Bool)
  | error_response (id : Option String) (error : String)

/-- A background relay task spawned by the `stream_start` branch
(`asyncio.create_task(handle_stream(...))`): the arguments `handle_stream`
will later be run with. -/
structure StreamJob where
  streamId : String
  function : String
  args : List Value
  kwargs : List (String × Value)

/-- Everything one call of `handle_plugin_message` does. -/
structure HandleOut where
  response : Option Response
  mgr : PluginManager
  effects : List Effect
  spawned : Option StreamJob

/-- `handle_plugin_message` (server.py:75-155), per message type.  The
`stream_start` branch only spawns the relay task and immediately answers
`success: True`; it performs no lookup of the plugin or the function. -/
def handle_plugin_message (mgr : PluginManager) (plugin_id : String)
    (msg : Message) : HandleOut :=
  match msg.body with
  | .load code reqs =>
      let (out, mgr2, fx) := load_plugin mgr plugin_id code reqs
      ⟨some (.load_response msg.id out.success out.error), mgr2, fx, none⟩
  | .execute fn args kwargs =>
      let out := execute_plugin_function mgr plugin_id fn ⟨args, kwargs⟩
      ⟨some (.execute_response msg.id out.result out.error), mgr, [], none⟩
  | .stream_start sid fn args kwargs =>
      ⟨some (.stream_start_response msg.id sid true), mgr, [],
        some ⟨sid, fn, args, kwargs⟩⟩
  | .stream_stop sid =>
      let (mgr2, fx) := stop_stream mgr plugin_id sid
      ⟨some (.stream_stop_response msg.id sid true), mgr2, fx, none⟩
  | .unload =>
      let (mgr2, fx) := unload_plugin mgr plugin_id
      ⟨some (.unload_response msg.id true), mgr2, fx, none⟩

/-- `PluginManager.get_loaded_plugins` (plugin_manager.py:193-195). -/
def get_loaded_plugins (mgr : PluginManager) : List String :=
  dictKeys mgr.plugins

/-- Whether an `execute_function` call raised. -/
def isErrorResult : Except String Value → Bool
  | .error _ => true
  | .ok _ => false

/-- The `stream_error` events among a relay's output. -/
def errorEvents (es : List StreamEvent) : List StreamEvent :=
  es.filter fun e =>
    match e with
    | .error _ _ => true
    | .data _ _ => false

/-! ### Dictionary lemmas -/

theorem dictGet_dictSet_self {α : Type} (d : List (String × α)) (k : String)
    (v : α) : dictGet (dictSet d k v) k = some v := by
  simp [dictSet, dictGet]

theorem dictGet_dictErase_other {α : Type} (d : List (String × α))
    (k k' : String) (h : k' ≠ k) :
    dictGet (dictErase d k) k' = dictGet d k' := by
  induction d with
  | nil => rfl
  | cons p rest ih =>
      obtain ⟨a, v⟩ := p
      by_cases hak : a = k
      · subst hak
        simp [dictErase, dictGet, Ne.symm h, ih]
      · simp [dictErase, dictGet, hak, ih]

theorem dictGet_dictSet_other {α : Type} (d : List (String × α))
    (k k' : String) (v : α) (h : k' ≠ k) :
    dictGet (dictSet d k v) k' = dictGet d k' := by
  simp [dictSet, dictGet, Ne.symm h, dictGet_dictErase_other d k k' h]

theorem mem_dictKeys_dictErase {α : Type} (d : List (String × α))
    (k k' : String) (h : k' ∈ dictKeys (dictErase d k)) :
    k' ∈ dictKeys d := by
  induction d with
  | nil => simp [dictErase, dictKeys] at h
  | cons p rest ih =>
      obtain ⟨a, v⟩ := p
      by_cases hak : a = k
      · subst hak
        simp only [dictErase, if_pos rfl] at h
        exact List.mem_cons_of_mem _ (ih h)
      · simp only [dictErase, if_neg hak, dictKeys, List.map_cons,
          List.mem_cons] at h ⊢
        rcases h with h | h
        · exact Or.inl h
        · exact Or.inr (ih h)

theorem not_mem_dictKeys_dictErase {α : Type} (d : List (String × α))
    (k : String) : k ∉ dictKeys (dictErase d k) := by
  induction d with
  | nil => simp [dictErase, dictKeys]
  | cons p rest ih =>
      obtain ⟨a, v⟩ := p
      by_cases hak : a = k
      · subst hak
        simpa [dictErase] using ih
      · simp only [dictErase, if_neg hak, dictKeys, List.map_cons,
          List.mem_cons]
        rintro (h | h)
        · exact hak h.symm
        · exact ih h

theorem nodup_dictKeys_dictErase {α : Type} (d : List (String × α))
    (k : String) (h : (dictKeys d).Nodup) :
    (dictKeys (dictErase d k)).Nodup := by
  induction d with
  | nil => simp [dictErase, dictKeys]
  | cons p rest ih =>
      obtain ⟨a, v⟩ := p
      simp only [dictKeys, List.map_cons, List.nodup_cons] at h
      by_cases hak : a = k
      · subst hak
        simpa [dictErase] using ih h.2
      · simp only [dictErase, if_neg hak, dictKeys, List.map_cons,
          List.nodup_cons]
        exact ⟨fun hc => h.1 (mem_dictKeys_dictErase rest k a hc), ih h.2⟩

theorem nodup_dictKeys_dictSet {α : Type} (d : List (String × α))
    (k : String) (v : α) (h : (dictKeys d).Nodup) :
    (dictKeys (dictSet d k v)).Nodup := by
  simp only [dictSet, dictKeys, List.map_cons, List.nodup_cons]
  exact ⟨not_mem_dictKeys_dictErase d k, nodup_dictKeys_dictErase d k h⟩

/-! ### Stream lemmas -/

/-- A producer trace whose yields contain no `None` is relayed in full: the
consumer stops exactly at the end marker. -/
theorem consumeLoop_clean : ∀ (ys : List Value),
    (∀ v ∈ ys, v.isNone = false) →
    consumeLoop (ys.map Pull.item ++ [Pull.item Value.vnone]) = ys
  | [], _ => by simp [consumeLoop, Value.isNone]
  | a :: t, h => by
      have ha : a.isNone = false := h a (by simp)
      have ih := consumeLoop_clean t (fun v hv => h v (by simp [hv]))
      simp [consumeLoop, ha, ih]

/-- Evaluation of `stream_function` on a terminating generator-function
entry point (a terminating sync producer never wedges the loop). -/
theorem stream_function_genFn (inst : PluginInstance)
    (stream_id function_name : String) (ca : CallArgs)
    (run : CallArgs → GTrace Value)
    (hf : dictGet inst.module function_name = some (.genFn run))
    (hd : (run ca).isDone = true) :
    inst.stream_function stream_id function_name ca =
      (⟨consumeLoop (pullsOf (run ca)), none⟩,
       { inst with streams := inst.streams.erase stream_id }, []) := by
  simp [PluginInstance.stream_function, hf, run_streaming_function,
    ProducerRun.wedges, hd, List.erase_cons_head]

/-- Evaluation of `handle_stream` on a loaded plugin and a terminating
generator-function entry point. -/
theorem handle_stream_genFn (conns : List String) (mgr : PluginManager)
    (plugin_id stream_id function_name : String) (ca : CallArgs)
    (inst : PluginInstance) (run : CallArgs → GTrace Value)
    (hconn : conns.contains plugin_id = true)
    (hp : dictGet mgr.plugins plugin_id = some inst)
    (hf : dictGet inst.module function_name = some (.genFn run))
    (hd : (run ca).isDone = true) :
    handle_stream conns mgr plugin_id stream_id function_name ca =
      ((consumeLoop (pullsOf (run ca))).map (StreamEvent.data stream_id),
       ⟨dictSet mgr.plugins plugin_id
         { inst with streams := inst.streams.erase stream_id }⟩, []) := by
  have hmem : plugin_id ∈ conns := by simpa using hconn
  simp [handle_stream, hmem, stream_plugin_function, hp,
    stream_function_genFn inst stream_id function_name ca run hf hd]

/-- Evaluation of `stream_function` on an async-generator entry point: the
producer iterates at cooperative suspension points, so it never wedges the
loop, and when stalled it is still pending at the timeout and cancelled. -/
theorem stream_function_asyncGen (inst : PluginInstance)
    (stream_id function_name : String) (ca : CallArgs)
    (run : CallArgs → GTrace Value)
    (hf : dictGet inst.module function_name = some (.asyncGen run)) :
    inst.stream_function stream_id function_name ca =
      (⟨consumeLoop (pullsOf (run ca)), none⟩,
       { inst with streams := inst.streams.erase stream_id },
       if (run ca).isDone then []
       else [Effect.streamCancelled inst.plugin_id stream_id]) := by
  simp [PluginInstance.stream_function, hf, run_streaming_function,
    ProducerRun.wedges, List.erase_cons_head]

/-- Evaluation of `handle_stream` on a loaded plugin and an async-generator
entry point. -/
theorem handle_stream_asyncGen (conns : List String) (mgr : PluginManager)
    (plugin_id stream_id function_name : String) (ca : CallArgs)
    (inst : PluginInstance) (run : CallArgs → GTrace Value)
    (hconn : conns.contains plugin_id = true)
    (hp : dictGet mgr.plugins plugin_id = some inst)
    (hf : dictGet inst.module function_name = some (.asyncGen run)) :
    handle_stream conns mgr plugin_id stream_id function_name ca =
      ((consumeLoop (pullsOf (run ca))).map (StreamEvent.data stream_id),
       ⟨dictSet mgr.plugins plugin_id
         { inst with streams := inst.streams.erase stream_id }⟩,
       if (run ca).isDone then []
       else [Effect.streamCancelled inst.plugin_id stream_id]) := by
  have hmem : plugin_id ∈ conns := by simpa using hconn
  simp [handle_stream, hmem, stream_plugin_function, hp,
    stream_function_asyncGen inst stream_id function_name ca run hf]

/-! ### Concrete fixtures -/

/-- Iteration behaviour of a generator yielding 1, 2, 3 and returning. -/
def run123 : CallArgs → GTrace Value :=
  fun _ => .done [Value.vint 1, Value.vint 2, Value.vint 3] none

/-- A Plain-sequence (generator function) entry point yielding 1, 2, 3. -/
def gen123 : PluginFunc := .genFn run123

/-- A Deferred-sequence (async generator function) yielding 1, 2, 3. -/
def agen123 : PluginFunc := .asyncGen run123

/-- An instance exposing the two sequence-producing entry points. -/
def instGen : PluginInstance := ⟨"p", [("gen", gen123), ("agen", agen123)], []⟩

def mgrGen : PluginManager := ⟨[("p", instGen)]⟩

/-- A generator function that yields 1, 2 and then raises `boom`. -/
def genTwoThenRaise : PluginFunc :=
  .genFn fun _ => .done [Value.vint 1, Value.vint 2] (some "boom")

def instBoom : PluginInstance := ⟨"p", [("f", genTwoThenRaise)], []⟩

def mgrBoom : PluginManager := ⟨[("p", instBoom)]⟩

/-- A generator function that yields the data values `None` and 7. -/
def genNoneThen7 : PluginFunc :=
  .genFn fun _ => .done [Value.vnone, Value.vint 7] none

def instNone : PluginInstance := ⟨"p", [("f", genNoneThen7)], []⟩

def mgrNone : PluginManager := ⟨[("p", instNone)]⟩

/-- A synchronous generator function that blocks before its first yield:
iterated on the event-loop thread, it wedges the loop. -/
def genStall : PluginFunc := .genFn fun _ => .stall []

def instStall : PluginInstance := ⟨"p", [("f", genStall)], []⟩

def mgrStall : PluginManager := ⟨[("p", instStall)]⟩

/-- An async generator that stalls at an `await` before its first yield:
the event loop stays free, so the consumer's timeout can fire. -/
def agenStall : PluginFunc := .asyncGen fun _ => .stall []

def instAStall : PluginInstance := ⟨"p", [("f", agenStall)], []⟩

def mgrAStall : PluginManager := ⟨[("p", instAStall)]⟩

/-- A `cleanup` entry point. -/
def cleanupFunc : PluginFunc := .plain fun _ => .ok Value.vnone

/-- An already-registered instance with an active stream `s` and a
`cleanup` entry point. -/
def oldInst : PluginInstance := ⟨"p", [("cleanup", cleanupFunc)], ["s"]⟩

def mgrOld : PluginManager := ⟨[("p", oldInst)]⟩

/-- A code unit that executes to an empty module namespace. -/
def freshCode : CodeUnit := ⟨.ok []⟩

/-- A code unit whose execution raises. -/
def badCode : CodeUnit := ⟨.error "SyntaxError"⟩

def mgrEmpty : PluginManager := ⟨[]⟩

def noArgs : CallArgs := ⟨[], []⟩

/-! ### Claims -/

/-- C1, counterexample: calling `execute_function` on a Plain-sequence
(generator function) entry point does not fail — no `ShapeMismatchError`
(nor any other error) is raised, contradicting the claim that `execute`
only accepts the Plain and Deferred shapes and fails on the others. -/
theorem C1_counterexample :
    isErrorResult (instGen.execute_function "gen" noArgs) = false := rfl

/-- C1, amended: `execute_function` performs no shape check at all.  On a
Plain-sequence entry point it succeeds and returns the unevaluated
generator object; on a Deferred-sequence entry point it succeeds and
returns the unevaluated async-generator object. -/
theorem C1_execute_no_shape_check (inst : PluginInstance)
    (gname aname : String) (grun arun : CallArgs → GTrace Value)
    (ca : CallArgs)
    (hg : dictGet inst.module gname = some (.genFn grun))
    (ha : dictGet inst.module aname = some (.asyncGen arun)) :
    inst.execute_function gname ca = .ok (Value.vgen (grun ca)) ∧
    inst.execute_function aname ca = .ok (Value.vagen (arun ca)) := by
  constructor <;> simp [PluginInstance.execute_function, hg, ha]

theorem C1_execute_no_shape_check_witness :
    instGen.execute_function "gen" noArgs =
      Except.ok (Value.vgen (run123 noArgs)) :=
  (C1_execute_no_shape_check instGen "gen" "agen" run123 run123 noArgs
    rfl rfl).1

/-- C4, counterexample: a successful `load_plugin` over an id that already
holds an instance with an active stream and a `cleanup` entry point emits
no effect at all — the old instance's streams are not cancelled and its
cleanup is not run; it is merely overwritten. -/
theorem C4_counterexample :
    (load_plugin mgrOld "p" freshCode []).1.success = true ∧
    dictGet mgrOld.plugins "p" = some oldInst ∧
    oldInst.streams = ["s"] ∧
    (dictGet oldInst.module "cleanup").isSome = true ∧
    (load_plugin mgrOld "p" freshCode []).2.2 = ([] : List Effect) :=
  ⟨rfl, rfl, rfl, rfl, rfl⟩

/-- C4, amended: at most one instance is registered per id (a successful
`load_plugin` replaces the binding and preserves key uniqueness), but the
replacement merely overwrites the old instance: no stream of the old
instance is cancelled and its cleanup is not run (no effect is emitted). -/
theorem C4_load_replaces_without_unload (mgr : PluginManager)
    (plugin_id : String) (cu : CodeUnit) (reqs : List String) (m : Module)
    (h : cu.loadResult = .ok m) :
    (load_plugin mgr plugin_id cu reqs).1.success = true ∧
    dictGet (load_plugin mgr plugin_id cu reqs).2.1.plugins plugin_id =
      some ⟨plugin_id, m, []⟩ ∧
    (load_plugin mgr plugin_id cu reqs).2.2 = [] ∧
    ((dictKeys mgr.plugins).Nodup →
      (dictKeys (load_plugin mgr plugin_id cu reqs).2.1.plugins).Nodup) := by
  refine ⟨?_, ?_, ?_, ?_⟩
  · simp [load_plugin, h]
  · simp [load_plugin, h, dictGet_dictSet_self]
  · simp [load_plugin, h]
  · intro hn
    simpa [load_plugin, h] using nodup_dictKeys_dictSet mgr.plugins plugin_id
      (⟨plugin_id, m, []⟩ : PluginInstance) hn

theorem C4_load_replaces_without_unload_witness :
    dictGet (load_plugin mgrOld "p" freshCode []).2.1.plugins "p" =
      some (⟨"p", [], []⟩ : PluginInstance) :=
  (C4_load_replaces_without_unload mgrOld "p" freshCode [] [] rfl).2.1

/-- C5: an `execute` message naming an unregistered plugin id is answered
with an `execute_response` whose `error` field reports the plugin as not
loaded; the handler returns normally (it is a total function into
`HandleOut`, so no exception reaches the transport), and the registry is
untouched. -/
theorem C5_execute_unknown_plugin (mgr : PluginManager) (plugin_id : String)
    (msgId : Option String) (fn : String) (args : List Value)
    (kwargs : List (String × Value))
    (h : dictGet mgr.plugins plugin_id = none) :
    handle_plugin_message mgr plugin_id ⟨msgId, .execute fn args kwargs⟩ =
      ⟨some (.execute_response msgId none
        (some ("Plugin " ++ plugin_id ++ " not loaded"))), mgr, [], none⟩ := by
  simp [handle_plugin_message, execute_plugin_function, h]

theorem C5_execute_unknown_plugin_witness :
    handle_plugin_message mgrEmpty "p" ⟨some "m1", .execute "f" [] []⟩ =
      ⟨some (.execute_response (some "m1") none
        (some ("Plugin " ++ "p" ++ " not loaded"))), mgrEmpty, [], none⟩ :=
  C5_execute_unknown_plugin mgrEmpty "p" (some "m1") "f" [] [] rfl

/-- C6, counterexample: a `stream_start` message naming an unregistered
plugin id is nevertheless acknowledged with `success: True` and no error
field — the lookup error is not returned in the corresponding response. -/
theorem C6_counterexample :
    dictGet mgrEmpty.plugins "p" = none ∧
    (handle_plugin_message mgrEmpty "p"
        ⟨some "m1", .stream_start "s" "f" [] []⟩).response =
      some (.stream_start_response (some "m1") "s" true) :=
  ⟨rfl, rfl⟩

/-- C6, amended: `stream_start` does not follow `execute`'s lookup rules in
its response: the handler acknowledges `success: True` unconditionally, and
for an unregistered plugin id the lookup error instead surfaces later as a
`stream_error` event when the spawned background relay runs. -/
theorem C6_stream_start_acks_then_errors (mgr : PluginManager)
    (plugin_id sid fn : String) (args : List Value)
    (kwargs : List (String × Value)) (msgId : Option String)
    (conns : List String) (ca : CallArgs)
    (h : dictGet mgr.plugins plugin_id = none)
    (hconn : conns.contains plugin_id = true) :
    (handle_plugin_message mgr plugin_id
        ⟨msgId, .stream_start sid fn args kwargs⟩).response =
      some (.stream_start_response msgId sid true) ∧
    (handle_stream conns mgr plugin_id sid fn ca).1 =
      [StreamEvent.error sid ("Plugin " ++ plugin_id ++ " not loaded")] := by
  have hmem : plugin_id ∈ conns := by simpa using hconn
  exact ⟨rfl, by simp [handle_stream, hmem, stream_plugin_function, h]⟩

theorem C6_stream_start_acks_then_errors_witness :
    (handle_stream ["p"] mgrEmpty "p" "s" "f" noArgs).1 =
      [StreamEvent.error "s" ("Plugin " ++ "p" ++ " not loaded")] :=
  (C6_stream_start_acks_then_errors mgrEmpty "p" "s" "f" [] [] (some "m1")
    ["p"] noArgs rfl rfl).2

/-- C9: on disconnect of a plugin's connection, the instance's active
streams are all cancelled and its stream map emptied, while the instance
itself (identity and module unchanged) stays registered, and every other
plugin's registry entry is untouched. -/
theorem C9_disconnect_keeps_instance (conns : List String)
    (mgr : PluginManager) (plugin_id : String) (inst : PluginInstance)
    (hp : dictGet mgr.plugins plugin_id = some inst) :
    dictGet (on_disconnect conns mgr plugin_id).2.1.plugins plugin_id =
      some { inst with streams := [] } ∧
    ({ inst with streams := ([] : List String) }).module = inst.module ∧
    (on_disconnect conns mgr plugin_id).2.2 =
      inst.streams.map (Effect.streamCancelled inst.plugin_id) ∧
    (∀ q, q ≠ plugin_id →
      dictGet (on_disconnect conns mgr plugin_id).2.1.plugins q =
        dictGet mgr.plugins q) := by
  refine ⟨?_, rfl, ?_, ?_⟩
  · simp [on_disconnect, stop_plugin, hp, PluginInstance.stop,
      dictGet_dictSet_self]
  · simp [on_disconnect, stop_plugin, hp, PluginInstance.stop]
  · intro q hq
    simp [on_disconnect, stop_plugin, hp, PluginInstance.stop,
      dictGet_dictSet_other _ _ _ _ hq]

theorem C9_disconnect_keeps_instance_witness :
    dictGet (on_disconnect ["p"] mgrOld "p").2.1.plugins "p" =
      some { oldInst with streams := ([] : List String) } :=
  (C9_disconnect_keeps_instance ["p"] mgrOld "p" oldInst rfl).1

/-- C10: a failing load (the code unit cannot be executed, or its optional
`initialize` entry point raises) returns `success: False` with the error
message, and leaves the registry exactly as it was: the failing id is not
added and any previously registered instance under it is unchanged. -/
theorem C10_load_failure_atomic (mgr : PluginManager) (plugin_id : String)
    (cu : CodeUnit) (reqs : List String) (e : String)
    (h : cu.loadResult = .error e) :
    load_plugin mgr plugin_id cu reqs = (⟨false, some e⟩, mgr, []) := by
  simp [load_plugin, h]

theorem C10_load_failure_atomic_witness :
    load_plugin mgrOld "p" badCode [] =
      (⟨false, some "SyntaxError"⟩, mgrOld, []) :=
  C10_load_failure_atomic mgrOld "p" badCode [] "SyntaxError" rfl

/-- C2, counterexample: for a producer that raises after yielding 1 and 2,
the relay emits exactly the two `stream_data` events and no `stream_error`
event at all — the claimed error event never appears, because the producer
task is already `done()` when the consumer sees the end marker and its
stored exception is never retrieved. -/
theorem C2_counterexample :
    (handle_stream ["p"] mgrBoom "p" "s" "f" noArgs).1 =
      [StreamEvent.data "s" (Value.vint 1),
       StreamEvent.data "s" (Value.vint 2)] ∧
    errorEvents (handle_stream ["p"] mgrBoom "p" "s" "f" noArgs).1 = [] :=
  ⟨rfl, rfl⟩

/-- C2, amended: for a producer that raises after yielding two (non-None)
items, the consumer observes exactly the two `stream_data` events and then
nothing — no `stream_error` event is emitted (the exception is only logged;
the task result holding it is never awaited) — and the streamId is removed
from the instance's active-stream set; the end marker is still pushed, so
the consumer loop terminates deterministically. -/
theorem C2_producer_error_never_relayed (conns : List String)
    (mgr : PluginManager) (plugin_id stream_id function_name : String)
    (ca : CallArgs) (inst : PluginInstance) (v1 v2 : Value) (e : String)
    (hconn : conns.contains plugin_id = true)
    (hp : dictGet mgr.plugins plugin_id = some inst)
    (hf : dictGet inst.module function_name =
      some (.genFn fun _ => .done [v1, v2] (some e)))
    (h1 : v1.isNone = false) (h2 : v2.isNone = false)
    (hs : stream_id ∉ inst.streams) :
    (handle_stream conns mgr plugin_id stream_id function_name ca).1 =
      [StreamEvent.data stream_id v1, StreamEvent.data stream_id v2] ∧
    ∃ inst2,
      dictGet (handle_stream conns mgr plugin_id stream_id
        function_name ca).2.1.plugins plugin_id = some inst2 ∧
      stream_id ∉ inst2.streams := by
  have h := handle_stream_genFn conns mgr plugin_id stream_id function_name
    ca inst _ hconn hp hf rfl
  have hclean : consumeLoop (pullsOf (GTrace.done [v1, v2] (some e))) =
      [v1, v2] := by
    refine consumeLoop_clean [v1, v2] ?_
    intro v hv
    rcases List.mem_cons.mp hv with hv1 | hv2
    · exact hv1 ▸ h1
    · rcases List.mem_cons.mp hv2 with hv1 | hv1
      · exact hv1 ▸ h2
      · simp at hv1
  refine ⟨?_, ⟨{ inst with streams := inst.streams.erase stream_id },
    ?_, ?_⟩⟩
  · simp [h, hclean]
  · simp [h, dictGet_dictSet_self]
  · rw [List.erase_of_not_mem hs]
    exact hs

theorem C2_producer_error_never_relayed_witness :
    (handle_stream ["p"] mgrBoom "p" "s" "f" noArgs).1 =
      [StreamEvent.data "s" (Value.vint 1),
       StreamEvent.data "s" (Value.vint 2)] :=
  (C2_producer_error_never_relayed ["p"] mgrBoom "p" "s" "f" noArgs instBoom
    (Value.vint 1) (Value.vint 2) "boom" rfl rfl rfl rfl rfl
    (by simp [instBoom])).1

/-- C3, counterexample: a producer that yields the data values `None` and 7
has nothing relayed at all — its first yielded value is indistinguishable
from the end marker, so the consumer ends the stream and the value 7 is
never relayed, contradicting the claim that every yielded value is relayed. -/
theorem C3_counterexample :
    (handle_stream ["p"] mgrNone "p" "s" "f" noArgs).1 = [] := rfl

/-- C3, amended: the end-of-stream marker is Python `None`, which shares
the data value space: it is distinguishable only from non-None values.  A
producer none of whose yields is `None` has every yielded value relayed in
order; a yielded `None` is treated as the end of the stream. -/
theorem C3_end_marker_is_python_none (conns : List String)
    (mgr : PluginManager) (plugin_id stream_id function_name : String)
    (ca : CallArgs) (inst : PluginInstance) (ys : List Value)
    (hconn : conns.contains plugin_id = true)
    (hp : dictGet mgr.plugins plugin_id = some inst)
    (hf : dictGet inst.module function_name =
      some (.genFn fun _ => .done ys none))
    (hys : ∀ v ∈ ys, v.isNone = false) :
    (handle_stream conns mgr plugin_id stream_id function_name ca).1 =
      ys.map (StreamEvent.data stream_id) := by
  have h := handle_stream_genFn conns mgr plugin_id stream_id function_name
    ca inst _ hconn hp hf rfl
  simp [h, pullsOf, consumeLoop_clean ys hys]

theorem C3_end_marker_is_python_none_witness :
    (handle_stream ["p"] mgrGen "p" "s" "gen" noArgs).1 =
      [Value.vint 1, Value.vint 2, Value.vint 3].map
        (StreamEvent.data "s") :=
  C3_end_marker_is_python_none ["p"] mgrGen "p" "s" "gen" noArgs instGen
    [Value.vint 1, Value.vint 2, Value.vint 3] rfl rfl rfl (by decide)

/-- C7: a Plain-sequence entry point yielding 1, 2, 3 produces, via
`handle_stream`, exactly the three `stream_data` events with payloads 1, 2,
3 in that order and nothing else for that streamId, after which the handle
is removed from the instance's active-stream set. -/
theorem C7_stream_relays_in_order (conns : List String)
    (mgr : PluginManager) (plugin_id stream_id function_name : String)
    (ca : CallArgs) (inst : PluginInstance)
    (hconn : conns.contains plugin_id = true)
    (hp : dictGet mgr.plugins plugin_id = some inst)
    (hf : dictGet inst.module function_name = some (.genFn run123))
    (hs : stream_id ∉ inst.streams) :
    (handle_stream conns mgr plugin_id stream_id function_name ca).1 =
      [StreamEvent.data stream_id (Value.vint 1),
       StreamEvent.data stream_id (Value.vint 2),
       StreamEvent.data stream_id (Value.vint 3)] ∧
    ∃ inst2,
      dictGet (handle_stream conns mgr plugin_id stream_id
        function_name ca).2.1.plugins plugin_id = some inst2 ∧
      stream_id ∉ inst2.streams := by
  have h := handle_stream_genFn conns mgr plugin_id stream_id function_name
    ca inst run123 hconn hp hf rfl
  refine ⟨?_, ⟨{ inst with streams := inst.streams.erase stream_id },
    ?_, ?_⟩⟩
  · simp [h, run123, pullsOf, consumeLoop, Value.isNone]
  · simp [h, dictGet_dictSet_self]
  · rw [List.erase_of_not_mem hs]
    exact hs

theorem C7_stream_relays_in_order_witness :
    (handle_stream ["p"] mgrGen "p" "s" "gen" noArgs).1 =
      [StreamEvent.data "s" (Value.vint 1),
       StreamEvent.data "s" (Value.vint 2),
       StreamEvent.data "s" (Value.vint 3)] :=
  (C7_stream_relays_in_order ["p"] mgrGen "p" "s" "gen" noArgs instGen
    rfl rfl rfl (by simp [instGen])).1

/-- C8, counterexample: a synchronous generator that blocks before its
first yield is such a producer (it neither yields an item nor pushes the
end marker within the timeout), yet the stream is not silently terminated:
it is iterated directly on the event-loop thread, so the blocked `next()`
holds the loop and the consumer's `wait_for` timer can never fire — no
event is ever emitted, but the handle `s` is never removed from the
instance's stream map and the producer is never cancelled. -/
theorem C8_counterexample :
    (handle_stream ["p"] mgrStall "p" "s" "f" noArgs).1 = [] ∧
    dictGet (handle_stream ["p"] mgrStall "p" "s" "f" noArgs).2.1.plugins
      "p" = some (⟨"p", [("f", genStall)], ["s"]⟩ : PluginInstance) ∧
    (handle_stream ["p"] mgrStall "p" "s" "f" noArgs).2.2 =
      ([] : List Effect) :=
  ⟨rfl, rfl, rfl⟩

/-- C8, amended: the silent timeout holds for a producer stalled at a
cooperative suspension point — an async generator that never yields and
never returns.  The consumer's first pull then hits the 10 s inactivity
timeout: no `stream_data` and no `stream_error` event is emitted, the
still-pending producer task is cancelled, and the streamId is removed from
the instance's active-stream set.  (A synchronous generator that blocks
instead wedges the event loop and the stream is never terminated.) -/
theorem C8_silent_timeout_async (conns : List String) (mgr : PluginManager)
    (plugin_id stream_id function_name : String) (ca : CallArgs)
    (inst : PluginInstance)
    (hconn : conns.contains plugin_id = true)
    (hp : dictGet mgr.plugins plugin_id = some inst)
    (hf : dictGet inst.module function_name =
      some (.asyncGen fun _ => .stall []))
    (hs : stream_id ∉ inst.streams) :
    (handle_stream conns mgr plugin_id stream_id function_name ca).1 =
      [] ∧
    (handle_stream conns mgr plugin_id stream_id function_name ca).2.2 =
      [Effect.streamCancelled inst.plugin_id stream_id] ∧
    ∃ inst2,
      dictGet (handle_stream conns mgr plugin_id stream_id
        function_name ca).2.1.plugins plugin_id = some inst2 ∧
      stream_id ∉ inst2.streams := by
  have h := handle_stream_asyncGen conns mgr plugin_id stream_id
    function_name ca inst _ hconn hp hf
  refine ⟨?_, ?_, ⟨{ inst with streams := inst.streams.erase stream_id },
    ?_, ?_⟩⟩
  · simp [h, pullsOf, consumeLoop]
  · simp [h, GTrace.isDone]
  · simp [h, dictGet_dictSet_self]
  · rw [List.erase_of_not_mem hs]
    exact hs

theorem C8_silent_timeout_async_witness :
    (handle_stream ["p"] mgrAStall "p" "s" "f" noArgs).1 = [] :=
  (C8_silent_timeout_async ["p"] mgrAStall "p" "s" "f" noArgs instAStall
    rfl rfl rfl (by simp [instAStall])).1

end EZR
